import Mathlib

/-!
Shallow embedding of the request-routing and provider-adapter core of the
llm-router service (FastAPI application under `app/`), together with proofs
about its validation, routing, dispatch, streaming and error-translation
behaviour.

Conventions used throughout:
* Python `dict[str, str]` chat messages are embedded as association lists.
* Python `Optional` values are embedded as `Option`; a JSON field that may be
  absent from the request body is embedded as `Option (Option _)` where the
  outer `none` means "field omitted" (so that pydantic defaults apply) and
  `some none` means "field explicitly null".
* Python exceptions that cross the functions under study are reified in the
  inductive type `PyExc`; FastAPI / Starlette translation of an uncaught
  exception into an HTTP response is the function `toResponse`.
* Upstream network effects are passed in explicitly as "outcome" values, and
  the arguments a function hands to the upstream client are returned
  alongside its result so that theorems can speak about what was forwarded.
-/

/-! ## Python semantics helpers -/

/-- A Python `dict[str, str]` message, embedded as an association list. -/
abbrev Msg := List (String × String)

/-- Embeds Python `m.get(k)`: first binding of the key, if any. -/
def dictGet (m : Msg) (k : String) : Option String :=
  (m.find? (fun kv => kv.fst == k)).map (fun kv => kv.snd)

/-- Python truthiness of an `Optional[int]`: `None` and `0` are falsy. -/
def pyTruthyInt : Option Int → Bool
  | none => false
  | some n => n != 0

/-- Python truthiness of an `Optional[bool]`: only `True` is truthy. -/
def pyTruthyBool : Option Bool → Bool
  | some true => true
  | _ => false

/-- The string `hay` mentions `needle` when `needle` occurs inside it. -/
def mentions (hay needle : String) : Prop :=
  ∃ a b, hay = a ++ needle ++ b

/-! ## app/config.py -/

/-- Embeds the fields of `Settings` (app/config.py) that the routing core
reads: the API key used by the token endpoint, the JWT signing secret, the
two payload ceilings, and the default model identifiers. -/
structure Settings where
  llm_router_api_key : String
  jwt_secret_key : String
  max_input_chars : Nat
  max_model_tokens : Int
  default_chat_model : String
  default_embed_model : String

/-- A `Settings` value holding the defaults written in app/config.py
(`max_input_chars = 16000`, `max_model_tokens = 4096`) with concrete
secrets, used to instantiate theorems. -/
def testSettings : Settings :=
  { llm_router_api_key := "testkey"
    jwt_secret_key := "secret"
    max_input_chars := 16000
    max_model_tokens := 4096
    default_chat_model := "openai:gpt-3.5-turbo-0125"
    default_embed_model := "openai:text-embedding-3-small" }

/-! ## app/schemas.py -/

/-- Embeds the pydantic model `ChatRequest` (app/schemas.py) after field
population: `temperature`, `max_tokens` and `stream` are `Optional` with
defaults `0.7`, `1024`, `False`. -/
structure ChatRequest where
  messages : List Msg
  temperature : Option Float
  max_tokens : Option Int
  stream : Option Bool

/-- Embeds `sum(len(m.get("content", "")) for m in model.messages)` from
`ChatRequest.check_payload_limits`. -/
def totalChars (messages : List Msg) : Nat :=
  (messages.map (fun m => ((dictGet m "content").getD "").length)).sum

/-- Embeds the model validator `ChatRequest.check_payload_limits`
(app/schemas.py lines 38-63): rejects when the aggregate content length
exceeds `settings.max_input_chars`, then when `max_tokens` is truthy and
exceeds `settings.max_model_tokens`; otherwise returns the model. -/
def check_payload_limits (st : Settings) (m : ChatRequest) :
    Except String ChatRequest :=
  if totalChars m.messages > st.max_input_chars then
    .error ("Total message content too large ("
      ++ toString (totalChars m.messages) ++
      " chars); max is " ++ toString st.max_input_chars)
  else
    match m.max_tokens with
    | some n =>
        if n != 0 && decide (n > st.max_model_tokens) then
          .error ("Requested max_tokens (" ++ toString n ++
            ") exceeds limit (" ++ toString st.max_model_tokens ++ ")")
        else .ok m
    | none => .ok m

/-- Embeds pydantic parsing of a chat request body into `ChatRequest`:
`messages` is required, the optional fields receive the defaults `0.7`,
`1024` and `False` when omitted, and the populated model then runs through
`check_payload_limits`. -/
def parseChatRequest (st : Settings) (messages : Option (List Msg))
    (temperature : Option (Option Float)) (max_tokens : Option (Option Int))
    (stream : Option (Option Bool)) : Except String ChatRequest :=
  match messages with
  | none => .error "Field required: messages"
  | some msgs =>
      check_payload_limits st
        { messages := msgs
          temperature := temperature.getD (some 0.7)
          max_tokens := max_tokens.getD (some 1024)
          stream := stream.getD (some false) }

/-- Embeds the pydantic model `EmbeddingRequest` (app/schemas.py lines
66-77): a required list of strings, with no further constraint. -/
structure EmbeddingRequest where
  input : List String

/-- Embeds pydantic parsing of an embeddings request body: the `input`
field is required (`Field(...)`) and any list of strings is accepted. -/
def parseEmbeddingRequest (input : Option (List String)) :
    Except String EmbeddingRequest :=
  match input with
  | none => .error "Field required: input"
  | some l => .ok { input := l }

/-! ## app/route_logic.py -/

/-- Embeds `select_adapter_and_model` (app/route_logic.py lines 23-56):
branches on the request type string and returns a (provider, model id)
pair, falling back to the chat default for anything unrecognized. The
payload argument is accepted but never inspected, as in the source. -/
def select_adapter_and_model {α : Type} (request_type : String)
    (_payload : α) : String × String :=
  if request_type = "chat" then
    ("openai", "openai:gpt-3.5-turbo-0125")
  else if request_type = "stream_chat" then
    ("openai", "openai:gpt-3.5-turbo-0125")
  else if request_type = "embed" then
    ("openai", "openai:text-embedding-3-small")
  else
    ("openai", "openai:gpt-3.5-turbo-0125")

/-! ## app/exceptions.py and exception-to-response translation -/

/-- The Python exceptions that can cross the boundaries of the embedded
functions: the repository's own `AdapterError` (app/exceptions.py), the
FastAPI `HTTPException`, pydantic validation failure, and the foreign
exception types that escape from the adapters or the loader. -/
inductive PyExc
  | adapterError (detail : String) (status_code : Nat)
  | httpException (status : Nat) (detail : String)
  | validationError (msg : String)
  | moduleNotFoundError (module : String)
  | httpStatusError (status : Nat)
  | keyError (key : String)
  | indexError
deriving DecidableEq

/-- True exactly on the repository's own uniform `AdapterError`. -/
def isAdapterError : PyExc → Bool
  | .adapterError _ _ => true
  | _ => false

/-- One `{role, content}` choice of a normalized chat completion (also the
shape of `response.choices[0].message` as the OpenAI SDK returns it). -/
structure SDKChoice where
  role : String
  content : String
deriving DecidableEq

/-- The normalized chat-completion dict every chat path returns:
`{id, object, model, choices: [{role, content}]}`. -/
structure ChatCompletion where
  id : String
  object : String
  model : String
  choices : List SDKChoice
deriving DecidableEq

/-- The JSON-observable HTTP responses the service can produce. -/
inductive RouterResponse
  | json (status : Nat) (detail : String)
  | chatOk (result : ChatCompletion)
  | chatText (result : String)
  | sse (lines : List String)
  | embedOk (object : String) (data : List String) (model : String)
      (usage : String)
  | tokenOk (access_token : String) (token_type : String)
  | rawOk (body : String)
deriving DecidableEq

/-- Embeds how the FastAPI application turns an uncaught exception into a
response: `AdapterError` is handled by `handle_adapter_error` (app/main.py
lines 112-120) with its own status code, `HTTPException` keeps its status,
a pydantic `ValidationError` becomes a 422, and every other exception is
turned into a bare 500 by the server error middleware. -/
def toResponse : PyExc → RouterResponse
  | .adapterError detail status_code => .json status_code detail
  | .httpException status detail => .json status detail
  | .validationError msg => .json 422 msg
  | .moduleNotFoundError _ => .json 500 "Internal Server Error"
  | .httpStatusError _ => .json 500 "Internal Server Error"
  | .keyError _ => .json 500 "Internal Server Error"
  | .indexError => .json 500 "Internal Server Error"

/-- A response is client-facing 4xx when its status lies in [400, 500). -/
def is4xx : RouterResponse → Prop
  | .json status _ => 400 ≤ status ∧ status < 500
  | _ => False

/-! ## app/adapters: model-name handling and the loader -/

/-- Embeds Python `model_name.split(":", 1)[1]`: the characters after the
first colon. -/
def afterFirstColon (s : String) : String :=
  ⟨(s.data.dropWhile (fun c => c != ':')).tail⟩

/-- Embeds `OpenAIAdapter.__init__` (app/adapters/openai_adapter.py line
40): strip everything up to the first colon when a colon is present. -/
def openaiModelName (model_name : String) : String :=
  if ':' ∈ model_name.data then afterFirstColon model_name else model_name

/-- Embeds Python `model_name.split(":")[-1]` from `DeepSeekAdapter.__init__`
(app/adapters/deepseek_adapter.py line 40): the segment after the last
colon, or the whole string when no colon is present. -/
def afterLastColon (s : String) : String :=
  ⟨(s.data.reverse.takeWhile (fun c => c != ':')).reverse⟩

/-- The inner adapter instance bound by the loader: one constructor per
provider module, each holding the `model_name` its `__init__` stored. -/
inductive InnerAdapter
  | openai (model_name : String)
  | ollama (model_name : String)
  | deepseek (model_name : String)
deriving DecidableEq

/-- The `model_name` attribute of the bound adapter instance. -/
def InnerAdapter.model_name : InnerAdapter → String
  | .openai m => m
  | .ollama m => m
  | .deepseek m => m

/-- Embeds `get_adapter` of app/adapters/openai_adapter.py: constructs an
`OpenAIAdapter`, whose `__init__` strips the provider marker. -/
def openai_get_adapter (model_name : String) : InnerAdapter :=
  .openai (openaiModelName model_name)

/-- Embeds `get_adapter` of app/adapters/ollama_adapter.py: constructs an
`OllamaAdapter`, whose `__init__` stores the identifier unchanged. -/
def ollama_get_adapter (model_name : String) : InnerAdapter :=
  .ollama model_name

/-- Embeds `get_adapter` of app/adapters/deepseek_adapter.py: constructs a
`DeepSeekAdapter`, whose `__init__` keeps the segment after the last
colon. -/
def deepseek_get_adapter (model_name : String) : InnerAdapter :=
  .deepseek (afterLastColon model_name)

/-- Embeds `importlib.import_module(f"app.adapters.{provider}_adapter")`
followed by the lookup of the module-level `get_adapter` (app/adapters/
adapter.py lines 48-49): the three provider modules that exist resolve to
their factories; any other provider name raises `ModuleNotFoundError`. -/
def import_adapter_module (provider : String) :
    Except PyExc (String → InnerAdapter) :=
  if provider = "openai" then .ok openai_get_adapter
  else if provider = "ollama" then .ok ollama_get_adapter
  else if provider = "deepseek" then .ok deepseek_get_adapter
  else .error (.moduleNotFoundError ("app.adapters." ++ provider ++ "_adapter"))

/-- Embeds the dispatcher class `Adapter` (app/adapters/adapter.py) after
`__init__` has run: the stored request type and payload, and the bound
inner adapter. -/
structure Adapter (α : Type) where
  request_type : String
  payload : α
  inner : InnerAdapter

/-- Embeds `Adapter.__init__` (app/adapters/adapter.py lines 35-49):
resolve provider and model through `select_adapter_and_model`, load the
provider module, and bind `get_adapter(model_id)`. Raises whatever the
dynamic module load raised when the provider module does not exist. -/
def Adapter.init {α : Type} (request_type : String) (payload : α) :
    Except PyExc (Adapter α) := do
  let pm := select_adapter_and_model request_type payload
  let get_adapter ← import_adapter_module pm.fst
  .ok { request_type := request_type, payload := payload
        inner := get_adapter pm.snd }

/-! ## Provider adapter methods

Each method returns the keyword arguments it handed to the upstream client
together with its result; the upstream effect itself is supplied as an
explicit outcome value. -/

/-- The keyword arguments of `client.chat.completions.create` in the
OpenAI adapter (also the JSON body the DeepSeek adapter posts). -/
structure OpenAIChatParams where
  model : String
  messages : List Msg
  temperature : Option Float
  max_tokens : Option Int

/-- The fields of an OpenAI SDK chat-completion response that the adapter
reads. -/
structure OpenAIRawResponse where
  id : String
  object : String
  model : String
  choices : List SDKChoice
deriving DecidableEq

/-- Outcome of the upstream `client.chat.completions.create` call: either
a response object or an `OpenAIError` raised by the SDK. -/
inductive OpenAIOutcome
  | success (resp : OpenAIRawResponse)
  | sdkError (msg : String)
deriving DecidableEq

/-- Embeds `OpenAIAdapter.chat` (app/adapters/openai_adapter.py lines
42-78): forwards model, messages, temperature and max_tokens to the SDK;
an `OpenAIError` is translated into `AdapterError("Upstream OpenAI chat
failed", 502)`; a successful response is reshaped, reading
`response.choices[0]` (an empty list would raise `IndexError`). -/
def OpenAIAdapter.chat (model_name : String) (messages : List Msg)
    (temperature : Option Float) (max_tokens : Option Int)
    (outcome : OpenAIOutcome) :
    OpenAIChatParams × Except PyExc ChatCompletion :=
  let params : OpenAIChatParams :=
    { model := model_name, messages := messages
      temperature := temperature, max_tokens := max_tokens }
  match outcome with
  | .sdkError _ =>
      (params, .error (.adapterError "Upstream OpenAI chat failed" 502))
  | .success resp =>
      match resp.choices with
      | [] => (params, .error .indexError)
      | c :: _ =>
          (params, .ok { id := resp.id, object := resp.object
                         model := resp.model
                         choices := [{ role := c.role, content := c.content }] })

/-- One chunk of the OpenAI SDK stream: the adapter only looks at whether
`chunk.choices` is nonempty and then serializes
`chunk.choices[0].model_dump()`, embedded here as an opaque string. -/
structure StreamChunk where
  choices : List String
deriving DecidableEq

/-- Outcome of `client.chat.completions.create(..., stream=True)`. -/
inductive OpenAIStreamOutcome
  | createError (msg : String)
  | chunks (cs : List StreamChunk)
deriving DecidableEq

/-- The JSON text `json.dumps({...})` built for one yielded stream chunk in
`OpenAIAdapter.chat_stream`. -/
def openaiChunkJson (uuid model choice : String) : String :=
  "\x7b\"id\": \"" ++ uuid ++ "\", \"object\": \"chat.completion.chunk\", " ++
    "\"model\": \"" ++ model ++ "\", \"choices\": [" ++ choice ++ "]\x7d"

/-- The chunk strings yielded by the loop in `OpenAIAdapter.chat_stream`:
chunks with empty `choices` are skipped, each yielded chunk gets a fresh
uuid from the generator. -/
def yieldChunks (model : String) (uuidGen : Nat → String) :
    Nat → List StreamChunk → List String
  | _, [] => []
  | i, c :: rest =>
      match c.choices with
      | [] => yieldChunks model uuidGen i rest
      | ch :: _ => openaiChunkJson (uuidGen i) model ch ::
          yieldChunks model uuidGen (i + 1) rest

/-- Embeds `OpenAIAdapter.chat_stream` (app/adapters/openai_adapter.py
lines 80-115): a failed `create` call is translated into
`AdapterError("Upstream OpenAI streaming failed", 502)`; otherwise the
yielded chunk strings are produced in upstream order. -/
def OpenAIAdapter.chat_stream (model_name : String) (messages : List Msg)
    (temperature : Option Float) (max_tokens : Option Int)
    (uuidGen : Nat → String) (outcome : OpenAIStreamOutcome) :
    OpenAIChatParams × Except PyExc (List String) :=
  let params : OpenAIChatParams :=
    { model := model_name, messages := messages
      temperature := temperature, max_tokens := max_tokens }
  match outcome with
  | .createError _ =>
      (params, .error (.adapterError "Upstream OpenAI streaming failed" 502))
  | .chunks cs => (params, .ok (yieldChunks model_name uuidGen 0 cs))

/-- Outcome of the upstream embeddings call in the OpenAI adapter; `data`
and `usage` are kept as opaque serialized values. -/
inductive OpenAIEmbedOutcome
  | success (data : List String) (usage : String)
  | sdkError (msg : String)
deriving DecidableEq

/-- Embeds `OpenAIAdapter.embed` (app/adapters/openai_adapter.py lines
117-142): forwards model and inputs; an `OpenAIError` becomes
`AdapterError("Upstream OpenAI embedding failed", 502)`; success is
reshaped into `{object, data, model, usage}`. -/
def OpenAIAdapter.embed (model_name : String) (texts : List String)
    (outcome : OpenAIEmbedOutcome) :
    (String × List String) × Except PyExc RouterResponse :=
  ((model_name, texts),
    match outcome with
    | .sdkError _ =>
        .error (.adapterError "Upstream OpenAI embedding failed" 502)
    | .success data usage =>
        .ok (.embedOk "list" data model_name usage))

/-- The JSON body `OllamaAdapter.chat` and `chat_stream` post to
`/api/chat`: model, messages, stream flag, and the options dict carrying
temperature and `num_predict`. -/
structure OllamaChatParams where
  model : String
  messages : List Msg
  stream : Bool
  temperature : Option Float
  num_predict : Option Int

/-- The fields of an httpx response from Ollama that the adapter reads:
the status code and the pieces of the decoded JSON body it accesses
(`id`, `message.role`, `message.content`), each possibly missing. -/
structure OllamaHttpResponse where
  status : Nat
  id : Option String
  message_role : Option String
  message_content : Option String
deriving DecidableEq

/-- Embeds `OllamaAdapter.chat` (app/adapters/ollama_adapter.py lines
64-100): posts the payload, calls `resp.raise_for_status()` — which
raises `httpx.HTTPStatusError` for any 4xx or 5xx status, uncaught here —
then reshapes the body, defaulting a missing `id` to a fresh uuid and a
missing role to `"assistant"`; a missing `message.content` would raise
`KeyError`. -/
def OllamaAdapter.chat (model_name : String) (messages : List Msg)
    (temperature : Option Float) (max_tokens : Option Int) (uuid : String)
    (resp : OllamaHttpResponse) :
    OllamaChatParams × Except PyExc ChatCompletion :=
  let params : OllamaChatParams :=
    { model := model_name, messages := messages, stream := false
      temperature := temperature, num_predict := max_tokens }
  if 400 ≤ resp.status then
    (params, .error (.httpStatusError resp.status))
  else
    match resp.message_content with
    | none => (params, .error (.keyError "content"))
    | some content =>
        (params, .ok { id := resp.id.getD uuid, object := "chat.completion"
                       model := model_name
                       choices := [{ role := resp.message_role.getD "assistant"
                                     content := content }] })

/-- The fields of an httpx response from DeepSeek that
`DeepSeekAdapter.chat` reads: the status code and
`data["choices"][0]["message"]["content"]` when that path exists. -/
structure DeepSeekHttpResponse where
  status : Nat
  content : Option String
deriving DecidableEq

/-- Embeds `DeepSeekAdapter.chat` (app/adapters/deepseek_adapter.py lines
42-78): posts the payload; `resp.raise_for_status()` raises
`httpx.HTTPStatusError` on an error status, which the adapter catches,
logs and re-raises unchanged; on success it returns the assistant message
content (a missing path would raise `KeyError`). -/
def DeepSeekAdapter.chat (model_name : String) (messages : List Msg)
    (temperature : Option Float) (max_tokens : Option Int)
    (resp : DeepSeekHttpResponse) :
    OpenAIChatParams × Except PyExc String :=
  let params : OpenAIChatParams :=
    { model := model_name, messages := messages
      temperature := temperature, max_tokens := max_tokens }
  if 400 ≤ resp.status then
    (params, .error (.httpStatusError resp.status))
  else
    match resp.content with
    | none => (params, .error (.keyError "choices"))
    | some c => (params, .ok c)

/-- An httpx response from the Ollama `/api/embed` endpoint: the adapter
returns the decoded JSON body verbatim, embedded as an opaque string. -/
structure OllamaEmbedResponse where
  status : Nat
  body : String
deriving DecidableEq

/-- Embeds `OllamaAdapter.embed` (app/adapters/ollama_adapter.py lines
42-62): `raise_for_status` lets `httpx.HTTPStatusError` escape on an
error status; otherwise the raw JSON body is returned unchanged. -/
def OllamaAdapter.embed (model_name : String) (inputs : List String)
    (resp : OllamaEmbedResponse) :
    (String × List String) × Except PyExc RouterResponse :=
  ((model_name, inputs),
    if 400 ≤ resp.status then .error (.httpStatusError resp.status)
    else .ok (.rawOk resp.body))

/-- An httpx response from the DeepSeek embeddings endpoint: the adapter
returns `data["data"][0]["embedding"]`, embedded as an opaque string. -/
structure DeepSeekEmbedResponse where
  status : Nat
  embedding : Option String
deriving DecidableEq

/-- Embeds `DeepSeekAdapter.embed` (app/adapters/deepseek_adapter.py lines
80-109): re-raises `httpx.HTTPStatusError` unchanged on an error status;
on success returns the first embedding vector. -/
def DeepSeekAdapter.embed (model_name : String) (inputs : List String)
    (resp : DeepSeekEmbedResponse) :
    (String × List String) × Except PyExc RouterResponse :=
  ((model_name, inputs),
    if 400 ≤ resp.status then .error (.httpStatusError resp.status)
    else
      match resp.embedding with
      | none => .error (.keyError "data")
      | some e => .ok (.rawOk e))

/-! ## Dispatcher delegation and the upstream world -/

/-- All upstream effects a single chat request may consume, supplied
explicitly: one outcome per provider method that could be reached, plus
the fresh uuid sources. -/
structure ChatWorld where
  openaiChat : OpenAIOutcome
  openaiStream : OpenAIStreamOutcome
  ollamaChat : OllamaHttpResponse
  deepseekChat : DeepSeekHttpResponse
  uuid : String
  uuidGen : Nat → String

/-- All upstream effects a single embeddings request may consume. -/
structure EmbedWorld where
  openaiEmbed : OpenAIEmbedOutcome
  ollamaEmbed : OllamaEmbedResponse
  deepseekEmbed : DeepSeekEmbedResponse

/-- The observable calls the service makes while handling one request:
adapter construction and each upstream provider call together with the
arguments forwarded to it. -/
inductive Event
  | adapterConstructed (provider : String) (model_id : String)
  | openaiChatCall (p : OpenAIChatParams)
  | openaiStreamCall (p : OpenAIChatParams)
  | ollamaChatCall (p : OllamaChatParams)
  | deepseekChatCall (p : OpenAIChatParams)
  | openaiEmbedCall (model : String) (inputs : List String)
  | ollamaEmbedCall (model : String) (inputs : List String)
  | deepseekEmbedCall (model : String) (inputs : List String)

/-- Embeds `Adapter.chat` (app/adapters/adapter.py lines 51-60): forwards
messages, temperature and max_tokens to the bound inner adapter without
any branching logic of its own, and records the upstream call made. -/
def Adapter.chat {α : Type} (a : Adapter α) (messages : List Msg)
    (temperature : Option Float) (max_tokens : Option Int) (w : ChatWorld) :
    List Event × Except PyExc RouterResponse :=
  match a.inner with
  | .openai m =>
      let r := OpenAIAdapter.chat m messages temperature max_tokens w.openaiChat
      ([.openaiChatCall r.fst], r.snd.map .chatOk)
  | .ollama m =>
      let r := OllamaAdapter.chat m messages temperature max_tokens w.uuid
        w.ollamaChat
      ([.ollamaChatCall r.fst], r.snd.map .chatOk)
  | .deepseek m =>
      let r := DeepSeekAdapter.chat m messages temperature max_tokens
        w.deepseekChat
      ([.deepseekChatCall r.fst], r.snd.map .chatText)

/-- Embeds `Adapter.chat_stream` (app/adapters/adapter.py lines 62-72):
forwards to the bound inner adapter's stream generator. Only the OpenAI
adapter is ever bound by the current route policy; the result is the list
of yielded chunk strings. -/
def Adapter.chat_stream {α : Type} (a : Adapter α) (messages : List Msg)
    (temperature : Option Float) (max_tokens : Option Int) (w : ChatWorld) :
    List Event × Except PyExc (List String) :=
  match a.inner with
  | .openai m =>
      let r := OpenAIAdapter.chat_stream m messages temperature max_tokens
        w.uuidGen w.openaiStream
      ([.openaiStreamCall r.fst], r.snd)
  | .ollama m =>
      let r := OllamaAdapter.chat m messages temperature max_tokens w.uuid
        w.ollamaChat
      ([.ollamaChatCall r.fst], r.snd.map (fun _ => []))
  | .deepseek m =>
      let r := DeepSeekAdapter.chat m messages temperature max_tokens
        w.deepseekChat
      ([.deepseekChatCall r.fst], r.snd.map (fun _ => []))

/-- Embeds `Adapter.embed` (app/adapters/adapter.py lines 74-78): forwards
the inputs to the bound inner adapter. -/
def Adapter.embed {α : Type} (a : Adapter α) (inputs : List String)
    (w : EmbedWorld) : List Event × Except PyExc RouterResponse :=
  match a.inner with
  | .openai m =>
      let r := OpenAIAdapter.embed m inputs w.openaiEmbed
      ([.openaiEmbedCall r.fst.fst r.fst.snd], r.snd)
  | .ollama m =>
      let r := OllamaAdapter.embed m inputs w.ollamaEmbed
      ([.ollamaEmbedCall r.fst.fst r.fst.snd], r.snd)
  | .deepseek m =>
      let r := DeepSeekAdapter.embed m inputs w.deepseekEmbed
      ([.deepseekEmbedCall r.fst.fst r.fst.snd], r.snd)

/-! ## app/main.py -/

/-- Embeds the `event_gen` generator inside the `/v1/chat/completions`
handler (app/main.py lines 269-277): one `data: <chunk>\n\n` line per
chunk in order, then the single `data: [DONE]\n\n` terminator. -/
def event_gen : List String → List String
  | [] => ["data: [DONE]\n\n"]
  | c :: rest => ("data: " ++ c ++ "\n\n") :: event_gen rest

/-- Embeds the chat dependency `get_chat_adapter` (app/dependencies.py
lines 25-41) followed by the `/v1/chat/completions` handler (app/main.py
lines 252-277): parse and validate the body, construct the dispatcher for
kind `stream_chat` or `chat`, read the forwarded fields back out of the
payload, then either stream through `event_gen` or perform one chat call.
Returns the HTTP response together with the list of observable events. -/
def chat_endpoint (st : Settings) (messages : Option (List Msg))
    (temperature : Option (Option Float)) (max_tokens : Option (Option Int))
    (stream : Option (Option Bool)) (w : ChatWorld) :
    RouterResponse × List Event :=
  match parseChatRequest st messages temperature max_tokens stream with
  | .error msg => (.json 422 msg, [])
  | .ok req =>
      let kind := if pyTruthyBool req.stream then "stream_chat" else "chat"
      match Adapter.init kind req with
      | .error e => (toResponse e, [])
      | .ok adapter =>
          let pm := select_adapter_and_model kind req
          let constructed := [Event.adapterConstructed pm.fst pm.snd]
          let msgs := adapter.payload.messages
          let temp := adapter.payload.temperature
          let mtok := adapter.payload.max_tokens
          if pyTruthyBool adapter.payload.stream then
            let r := Adapter.chat_stream adapter msgs temp mtok w
            match r.snd with
            | .ok chunks => (.sse (event_gen chunks), constructed ++ r.fst)
            | .error e => (toResponse e, constructed ++ r.fst)
          else
            let r := Adapter.chat adapter msgs temp mtok w
            match r.snd with
            | .ok resp => (resp, constructed ++ r.fst)
            | .error e => (toResponse e, constructed ++ r.fst)

/-- Embeds the embeddings dependency `get_embedding_adapter`
(app/dependencies.py lines 44-56) followed by the `/v1/embeddings` handler
(app/main.py lines 282-297): parse the body, construct the dispatcher for
kind `embed`, call `adapter.embed(inputs)`; any exception from the call is
caught and replaced by `HTTPException(500, "Embedding failed")`. -/
def embed_endpoint (input : Option (List String)) (w : EmbedWorld) :
    RouterResponse × List Event :=
  match parseEmbeddingRequest input with
  | .error msg => (.json 422 msg, [])
  | .ok req =>
      match Adapter.init "embed" req with
      | .error e => (toResponse e, [])
      | .ok adapter =>
          let pm := select_adapter_and_model "embed" req
          let constructed := [Event.adapterConstructed pm.fst pm.snd]
          let r := Adapter.embed adapter adapter.payload.input w
          match r.snd with
          | .ok resp => (resp, constructed ++ r.fst)
          | .error _ =>
              (toResponse (.httpException 500 "Embedding failed"),
                constructed ++ r.fst)

/-- The JSON body of a successful `/v1/token` response. -/
structure TokenResponse where
  access_token : String
  token_type : String
deriving DecidableEq

/-- Embeds the `/v1/token` handler `get_token` (app/main.py lines
230-247): a mismatched key raises `HTTPException(403, "Invalid API key")`
before any token is created; a matching key returns the encoded JWT with
token type `bearer`. The JWT encoder is supplied as a function of the
signing secret. -/
def get_token (st : Settings) (encode : String → String) (api_key : String) :
    Except PyExc TokenResponse :=
  if api_key ≠ st.llm_router_api_key then
    .error (.httpException 403 "Invalid API key")
  else
    .ok { access_token := encode st.jwt_secret_key, token_type := "bearer" }

/-- An inbound HTTP request as the body-size middleware sees it: the
parsed `Content-Length` header when the client sent one, and the actual
body size in bytes. The middleware never reads the body itself. -/
structure HttpRequest where
  content_length : Option Nat
  body_size : Nat

/-- Embeds `BodySizeLimitMiddleware.dispatch` (app/middleware_body_limit.py
lines 40-49), installed with `max_content_length = 1_048_576` (app/main.py
line 128): when a `Content-Length` header is present and exceeds the
ceiling, answer 413 without calling the inner application; otherwise call
the inner application. Returns the response and whether the inner
application ran. -/
def bodyLimitDispatch (max_content_length : Nat) (req : HttpRequest)
    (inner : RouterResponse) : RouterResponse × Bool :=
  match req.content_length with
  | some n =>
      if n > max_content_length then
        (.json 413 "Request body too large", false)
      else (inner, true)
  | none => (inner, true)

/-! ## Helper lemmas -/

theorem string_mk_data (s : String) : String.mk s.data = s := rfl

theorem dropWhile_ne_colon_append {p n : List Char} (h : ':' ∉ p) :
    (p ++ ':' :: n).dropWhile (fun c => c != ':') = ':' :: n := by
  induction p with
  | nil => simp [List.dropWhile_cons]
  | cons a as ih =>
      have ha : a ≠ ':' := fun e => h (e ▸ List.mem_cons_self a as)
      simp [List.dropWhile_cons, ha,
        ih (fun hm => h (List.mem_cons_of_mem a hm))]

theorem takeWhile_ne_colon_append {l r : List Char} (h : ':' ∉ l) :
    (l ++ ':' :: r).takeWhile (fun c => c != ':') = l := by
  induction l with
  | nil => simp [List.takeWhile_cons]
  | cons a as ih =>
      have ha : a ≠ ':' := fun e => h (e ▸ List.mem_cons_self a as)
      simp [List.takeWhile_cons, ha,
        ih (fun hm => h (List.mem_cons_of_mem a hm))]

theorem data_append_colon (p n : String) :
    (p ++ ":" ++ n).data = p.data ++ ':' :: n.data := by
  simp [String.data_append]

/-- The `event_gen` generator in closed form: one framed line per chunk
followed by the terminator. -/
theorem event_gen_eq (chunks : List String) :
    event_gen chunks
      = chunks.map (fun c => "data: " ++ c ++ "\n\n") ++ ["data: [DONE]\n\n"] := by
  induction chunks with
  | nil => rfl
  | cons c rest ih => simp [event_gen, ih]

/-! ## Claim C3 -/

/-- C3: the route selector is a pure, deterministic function of the pair
(request type, payload): it never inspects the payload and never raises,
returning the embedding default for request type `embed` and the chat
default `("openai", "openai:gpt-3.5-turbo-0125")` for `chat`,
`stream_chat` and every other request type. -/
theorem route_selector_fixed_mapping {α β : Type} (request_type : String)
    (p : α) (q : β) :
    select_adapter_and_model request_type p
      = (if request_type = "embed" then
          ("openai", "openai:text-embedding-3-small")
        else ("openai", "openai:gpt-3.5-turbo-0125"))
  ∧ select_adapter_and_model request_type p
      = select_adapter_and_model request_type q := by
  constructor
  · unfold select_adapter_and_model
    split_ifs with h1 h2 h3 <;> simp_all
  · rfl

/-! ## Claim C1 -/

/-- C1 counterexample: resolving the unregistered provider `anthropic`
does not fail with an `UnsupportedProviderError` surfaced as a 4xx
client error; it raises `ModuleNotFoundError` from the dynamic import,
which the application surfaces as a 500 server fault. -/
theorem unregistered_provider_counterexample :
    import_adapter_module "anthropic"
      = .error (.moduleNotFoundError "app.adapters.anthropic_adapter")
  ∧ toResponse (.moduleNotFoundError "app.adapters.anthropic_adapter")
      = .json 500 "Internal Server Error"
  ∧ ¬ is4xx (toResponse
        (.moduleNotFoundError "app.adapters.anthropic_adapter")) := by
  refine ⟨rfl, rfl, ?_⟩
  simp only [toResponse, is4xx]
  omega

/-- C1 amended: for every provider identifier with no registered adapter
module (any identifier other than `openai`, `ollama`, `deepseek`),
provider resolution fails with `ModuleNotFoundError` — the code contains
no `UnsupportedProviderError` — so no adapter instance is constructed and
no upstream call is attempted, and the failure surfaces as a 500 server
fault, not a 4xx client error; moreover the dispatcher's constructor
never actually reaches this case, because the route selector always
returns the registered provider `openai`. -/
theorem unregistered_provider_modulenotfound (provider : String)
    (h1 : provider ≠ "openai") (h2 : provider ≠ "ollama")
    (h3 : provider ≠ "deepseek") :
    import_adapter_module provider
      = .error (.moduleNotFoundError ("app.adapters." ++ provider ++ "_adapter"))
  ∧ ¬ is4xx (toResponse
        (.moduleNotFoundError ("app.adapters." ++ provider ++ "_adapter")))
  ∧ ∀ {α : Type} (request_type : String) (payload : α),
      ∃ a, Adapter.init request_type payload = .ok a := by
  refine ⟨by simp [import_adapter_module, h1, h2, h3], ?_, ?_⟩
  · simp only [toResponse, is4xx]
    omega
  · intro α request_type payload
    unfold Adapter.init select_adapter_and_model
    split_ifs <;> exact ⟨_, rfl⟩

/-- C1 witness for the amended theorem, at the provider `anthropic`. -/
theorem unregistered_provider_modulenotfound_witness :
    ("anthropic" : String) ≠ "openai"
  ∧ import_adapter_module "anthropic"
      = .error (.moduleNotFoundError ("app.adapters." ++ "anthropic" ++ "_adapter")) :=
  ⟨by decide,
    (unregistered_provider_modulenotfound "anthropic" (by decide) (by decide)
      (by decide)).1⟩

/-! ## Claim C5 -/

/-- C5 counterexample: the Ollama adapter constructed from the identifier
`ollama:llama3` stores the full identifier, not the post-colon model
name. -/
theorem ollama_keeps_full_identifier_counterexample :
    (ollama_get_adapter "ollama:llama3").model_name = "ollama:llama3"
  ∧ ("ollama:llama3" : String) ≠ "llama3" := by
  exact ⟨rfl, by decide⟩

/-- C5 amended: for a model identifier `<provider>:<model-name>` with a
colon-free provider and model name, the OpenAI and DeepSeek adapters store
the post-colon model name (OpenAI takes everything after the first colon,
DeepSeek the segment after the last colon), while the Ollama adapter
performs no stripping and stores the full identifier unchanged. -/
theorem model_name_stripping (p n : String) (hp : ':' ∉ p.data)
    (hn : ':' ∉ n.data) :
    (openai_get_adapter (p ++ ":" ++ n)).model_name = n
  ∧ (deepseek_get_adapter (p ++ ":" ++ n)).model_name = n
  ∧ (ollama_get_adapter (p ++ ":" ++ n)).model_name = p ++ ":" ++ n := by
  refine ⟨?_, ?_, rfl⟩
  · show openaiModelName (p ++ ":" ++ n) = n
    have hmem : ':' ∈ (p ++ ":" ++ n).data := by
      rw [data_append_colon]
      exact List.mem_append_right _ (List.mem_cons_self _ _)
    rw [openaiModelName, if_pos hmem]
    show String.mk (((p ++ ":" ++ n).data.dropWhile (fun c => c != ':')).tail) = n
    rw [data_append_colon, dropWhile_ne_colon_append hp]
    exact string_mk_data n
  · show afterLastColon (p ++ ":" ++ n) = n
    show String.mk (((p ++ ":" ++ n).data.reverse.takeWhile
      (fun c => c != ':')).reverse) = n
    rw [data_append_colon, List.reverse_append, List.reverse_cons,
      List.append_assoc, List.singleton_append]
    rw [takeWhile_ne_colon_append (by simpa using hn)]
    rw [List.reverse_reverse]

/-- C5 witness for the amended theorem, at `openai:gpt-4`-style inputs. -/
theorem model_name_stripping_witness :
    (':' ∉ ("openai" : String).data)
  ∧ (openai_get_adapter ("openai" ++ ":" ++ "gpt-4")).model_name = "gpt-4"
  ∧ (ollama_get_adapter ("openai" ++ ":" ++ "gpt-4")).model_name
      = "openai" ++ ":" ++ "gpt-4" :=
  ⟨by decide,
    (model_name_stripping "openai" "gpt-4" (by decide) (by decide)).1,
    (model_name_stripping "openai" "gpt-4" (by decide) (by decide)).2.2⟩

/-! ## Claim C2 -/

/-- Parsing a chat body with all optional fields omitted succeeds under
the two ceilings and populates the pydantic defaults. -/
theorem parseChatRequest_defaults_ok (st : Settings) (msgs : List Msg)
    (strm : Option (Option Bool)) (h1 : totalChars msgs ≤ st.max_input_chars)
    (h2 : (1024 : Int) ≤ st.max_model_tokens) :
    parseChatRequest st (some msgs) none none strm
      = .ok { messages := msgs, temperature := some 0.7
              max_tokens := some 1024, stream := strm.getD (some false) } := by
  have hne : ¬ (totalChars msgs > st.max_input_chars) := Nat.not_lt.mpr h1
  have hmt : ¬ ((1024 : Int) > st.max_model_tokens) := not_lt.mpr h2
  simp [parseChatRequest, check_payload_limits, hne, hmt]

/-- C2: a `ChatRequest` passes `check_payload_limits` exactly when the
aggregate character count of its message contents is at most
`max_input_chars` and `max_tokens` is absent or at most
`max_model_tokens`; a body that fails validation is answered with a 422
carrying the human-readable reason, with no adapter constructed and no
upstream call made; the specific request with content `hi` and
`max_tokens = 999999` under the ceiling 4096 is rejected with a message
mentioning `max_tokens` and the ceiling. -/
theorem chat_validation_characterization (st : Settings) (m : ChatRequest)
    (hmm : (0 : Int) ≤ st.max_model_tokens) :
    (check_payload_limits st m = .ok m ↔
      (totalChars m.messages ≤ st.max_input_chars ∧
        (m.max_tokens = none ∨
          ∃ n, m.max_tokens = some n ∧ n ≤ st.max_model_tokens)))
  ∧ (∀ (messages : Option (List Msg)) (temperature : Option (Option Float))
        (max_tokens : Option (Option Int)) (stream : Option (Option Bool))
        (w : ChatWorld) (msg : String),
      parseChatRequest st messages temperature max_tokens stream = .error msg →
      chat_endpoint st messages temperature max_tokens stream w
        = (.json 422 msg, []))
  ∧ parseChatRequest testSettings (some [[("role", "user"), ("content", "hi")]])
        none (some (some 999999)) none
      = .error "Requested max_tokens (999999) exceeds limit (4096)"
  ∧ mentions "Requested max_tokens (999999) exceeds limit (4096)" "max_tokens"
  ∧ mentions "Requested max_tokens (999999) exceeds limit (4096)" "4096" := by
  refine ⟨?_, ?_, ?_, ?_, ?_⟩
  · constructor
    · intro h
      unfold check_payload_limits at h
      by_cases hbig : totalChars m.messages > st.max_input_chars
      · rw [if_pos hbig] at h; simp at h
      · refine ⟨Nat.le_of_not_lt hbig, ?_⟩
        rw [if_neg hbig] at h
        cases hmt : m.max_tokens with
        | none => exact Or.inl rfl
        | some n =>
            rw [hmt] at h
            right
            refine ⟨n, rfl, ?_⟩
            by_cases hc : (n != 0 && decide (n > st.max_model_tokens)) = true
            · simp [hc] at h
            · simp only [Bool.and_eq_true, bne_iff_ne, ne_eq,
                decide_eq_true_eq, not_and, not_lt] at hc
              by_cases hz : n = 0
              · exact hz ▸ hmm
              · exact hc hz
    · rintro ⟨hle, hok⟩
      unfold check_payload_limits
      rw [if_neg (Nat.not_lt.mpr hle)]
      rcases hok with hnone | ⟨n, hn, hnle⟩
      · rw [hnone]
      · rw [hn]
        have hfalse : (n != 0 && decide (n > st.max_model_tokens)) = false := by
          simp [not_lt.mpr hnle]
        simp [hfalse]
  · intro messages temperature max_tokens stream w msg h
    simp [chat_endpoint, h]
  · rfl
  · exact ⟨"Requested ", " (999999) exceeds limit (4096)", by decide⟩
  · exact ⟨"Requested max_tokens (999999) exceeds limit (", ")", by decide⟩

/-- C2 witness, at the scenario request under the default settings. -/
theorem chat_validation_characterization_witness :
    ((0 : Int) ≤ testSettings.max_model_tokens)
  ∧ parseChatRequest testSettings
        (some [[("role", "user"), ("content", "hi")]])
        none (some (some 999999)) none
      = .error "Requested max_tokens (999999) exceeds limit (4096)" :=
  ⟨by decide,
    (chat_validation_characterization testSettings
        { messages := [], temperature := none, max_tokens := none
          stream := none } (by decide)).2.2.1⟩

/-! ## Claim C10 -/

/-- The dispatcher constructed for a non-streaming chat request binds the
OpenAI adapter with the stripped default chat model. -/
theorem adapter_init_chat (req : ChatRequest) :
    Adapter.init "chat" req
      = .ok { request_type := "chat", payload := req
              inner := .openai "gpt-3.5-turbo-0125" } := rfl

/-- The dispatcher constructed for a streaming chat request binds the
OpenAI adapter with the stripped default chat model. -/
theorem adapter_init_stream_chat (req : ChatRequest) :
    Adapter.init "stream_chat" req
      = .ok { request_type := "stream_chat", payload := req
              inner := .openai "gpt-3.5-turbo-0125" } := rfl

/-- C10: a chat body omitting `temperature`, `max_tokens` and `stream`
parses to the defaults `0.7`, `1024` and `False`; the handler then takes
the non-streaming path and makes exactly one upstream OpenAI chat call
whose forwarded arguments carry `temperature = 0.7` and
`max_tokens = 1024` (a cap, not unlimited). -/
theorem chat_defaults_forwarded (st : Settings) (msgs : List Msg)
    (w : ChatWorld) (h1 : totalChars msgs ≤ st.max_input_chars)
    (h2 : (1024 : Int) ≤ st.max_model_tokens) :
    parseChatRequest st (some msgs) none none none
      = .ok { messages := msgs, temperature := some 0.7
              max_tokens := some 1024, stream := some false }
  ∧ (chat_endpoint st (some msgs) none none none w).snd
      = [.adapterConstructed "openai" "openai:gpt-3.5-turbo-0125",
         .openaiChatCall { model := "gpt-3.5-turbo-0125", messages := msgs
                           temperature := some 0.7, max_tokens := some 1024 }]
  ∧ ∀ lines, (chat_endpoint st (some msgs) none none none w).fst ≠ .sse lines := by
  obtain ⟨oc, os, olc, dc, uu, ug⟩ := w
  have hparse := parseChatRequest_defaults_ok st msgs none h1 h2
  refine ⟨hparse, ?_, ?_⟩
  · unfold chat_endpoint
    rw [hparse]
    cases oc with
    | sdkError m => rfl
    | success resp =>
        obtain ⟨i, o, mo, ch⟩ := resp
        cases ch <;> rfl
  · intro lines
    unfold chat_endpoint
    rw [hparse]
    cases oc with
    | sdkError m => exact fun h => RouterResponse.noConfusion h
    | success resp =>
        obtain ⟨i, o, mo, ch⟩ := resp
        cases ch <;> exact fun h => RouterResponse.noConfusion h

/-- C10 witness, at a one-message request under the default settings. -/
theorem chat_defaults_forwarded_witness :
    totalChars [[("role", "user"), ("content", "hi")]]
        ≤ testSettings.max_input_chars
  ∧ (chat_endpoint testSettings (some [[("role", "user"), ("content", "hi")]])
        none none none
        { openaiChat := .sdkError "down"
          openaiStream := .chunks []
          ollamaChat := { status := 200, id := none, message_role := none
                          message_content := none }
          deepseekChat := { status := 200, content := none }
          uuid := "u0", uuidGen := fun _ => "u0" }).snd
      = [.adapterConstructed "openai" "openai:gpt-3.5-turbo-0125",
         .openaiChatCall { model := "gpt-3.5-turbo-0125"
                           messages := [[("role", "user"), ("content", "hi")]]
                           temperature := some 0.7, max_tokens := some 1024 }] :=
  ⟨by decide,
    (chat_defaults_forwarded testSettings [[("role", "user"), ("content", "hi")]]
        { openaiChat := .sdkError "down"
          openaiStream := .chunks []
          ollamaChat := { status := 200, id := none, message_role := none
                          message_content := none }
          deepseekChat := { status := 200, content := none }
          uuid := "u0", uuidGen := fun _ => "u0" }
        (by decide) (by decide)).2.1⟩

/-! ## Claim C6 -/

/-- C6: for a finite chunk sequence the SSE body is exactly one
`data: <chunk>` line per chunk, in order, followed by the single
`data: [DONE]` terminator; `event_gen` is a total function of the chunk
list, so re-invoking the stream on identical input terminates again with
the same `[DONE]` terminator; and the streaming branch of the chat
endpoint returns exactly this framing over the chunks the adapter
yielded. -/
theorem sse_framing_and_termination (chunks : List String) (st : Settings)
    (msgs : List Msg) (w : ChatWorld) (cs : List StreamChunk)
    (h1 : totalChars msgs ≤ st.max_input_chars)
    (h2 : (1024 : Int) ≤ st.max_model_tokens)
    (hw : w.openaiStream = .chunks cs) :
    event_gen chunks
      = chunks.map (fun c => "data: " ++ c ++ "\n\n") ++ ["data: [DONE]\n\n"]
  ∧ (event_gen chunks).getLast? = some "data: [DONE]\n\n"
  ∧ (chat_endpoint st (some msgs) none none (some (some true)) w).fst
      = .sse (event_gen (yieldChunks "gpt-3.5-turbo-0125" w.uuidGen 0 cs)) := by
  obtain ⟨oc, os, olc, dc, uu, ug⟩ := w
  refine ⟨event_gen_eq chunks, ?_, ?_⟩
  · simp [event_gen_eq]
  · simp only at hw
    subst hw
    unfold chat_endpoint
    rw [parseChatRequest_defaults_ok st msgs (some (some true)) h1 h2]
    rfl

/-- C6 witness, at a two-chunk stream under the default settings. -/
theorem sse_framing_and_termination_witness :
    totalChars [[("role", "user"), ("content", "hi")]]
        ≤ testSettings.max_input_chars
  ∧ (chat_endpoint testSettings (some [[("role", "user"), ("content", "hi")]])
        none none (some (some true))
        { openaiChat := .sdkError "unused"
          openaiStream := .chunks [{ choices := ["c0"] }, { choices := ["c1"] }]
          ollamaChat := { status := 200, id := none, message_role := none
                          message_content := none }
          deepseekChat := { status := 200, content := none }
          uuid := "u0", uuidGen := fun i => "u" ++ toString i }).fst
      = .sse (event_gen (yieldChunks "gpt-3.5-turbo-0125"
          (fun i => "u" ++ toString i) 0
          [{ choices := ["c0"] }, { choices := ["c1"] }])) :=
  ⟨by decide,
    (sse_framing_and_termination [] testSettings
        [[("role", "user"), ("content", "hi")]]
        { openaiChat := .sdkError "unused"
          openaiStream := .chunks [{ choices := ["c0"] }, { choices := ["c1"] }]
          ollamaChat := { status := 200, id := none, message_role := none
                          message_content := none }
          deepseekChat := { status := 200, content := none }
          uuid := "u0", uuidGen := fun i => "u" ++ toString i }
        [{ choices := ["c0"] }, { choices := ["c1"] }]
        (by decide) (by decide) rfl).2.2⟩

/-! ## Claim C4 -/

/-- C4 counterexample: on an upstream 500 the Ollama adapter's `chat`
raises the HTTP client's own `HTTPStatusError` (from
`resp.raise_for_status()`), not the uniform `AdapterError`, so an
upstream-specific exception type escapes the adapter interface. -/
theorem upstream_error_leak_counterexample :
    (OllamaAdapter.chat "llama3" [[("role", "user"), ("content", "hi")]]
        none none "uuid-0"
        { status := 500, id := none, message_role := none
          message_content := none }).snd
      = .error (.httpStatusError 500)
  ∧ isAdapterError (.httpStatusError 500) = false := ⟨rfl, rfl⟩

/-- C4 amended: only the OpenAI adapter translates upstream failures into
the uniform `AdapterError` (status 502 with a fixed message, for both
chat and streaming); the Ollama and DeepSeek adapters let the HTTP
client's `HTTPStatusError` escape unchanged on any upstream error
status. -/
theorem upstream_error_translation (model_name : String)
    (messages : List Msg) (temperature : Option Float)
    (max_tokens : Option Int) (emsg uuid : String)
    (uuidGen : Nat → String) (r1 : OllamaHttpResponse)
    (r2 : DeepSeekHttpResponse) (h1 : 400 ≤ r1.status)
    (h2 : 400 ≤ r2.status) :
    (OpenAIAdapter.chat model_name messages temperature max_tokens
        (.sdkError emsg)).snd
      = .error (.adapterError "Upstream OpenAI chat failed" 502)
  ∧ (OpenAIAdapter.chat_stream model_name messages temperature max_tokens
        uuidGen (.createError emsg)).snd
      = .error (.adapterError "Upstream OpenAI streaming failed" 502)
  ∧ (OllamaAdapter.chat model_name messages temperature max_tokens uuid
        r1).snd
      = .error (.httpStatusError r1.status)
  ∧ isAdapterError (.httpStatusError r1.status) = false
  ∧ (DeepSeekAdapter.chat model_name messages temperature max_tokens
        r2).snd
      = .error (.httpStatusError r2.status)
  ∧ isAdapterError (.httpStatusError r2.status) = false := by
  refine ⟨rfl, rfl, ?_, rfl, ?_, rfl⟩
  · simp [OllamaAdapter.chat, h1]
  · simp [DeepSeekAdapter.chat, h2]

/-- C4 witness for the amended theorem, at upstream status 503. -/
theorem upstream_error_translation_witness :
    (400 ≤ 503)
  ∧ (OllamaAdapter.chat "llama3" [] none none "u"
        { status := 503, id := none, message_role := none
          message_content := none }).snd
      = .error (.httpStatusError 503) :=
  ⟨by decide,
    (upstream_error_translation "llama3" [] none none "e" "u" (fun _ => "u")
        { status := 503, id := none, message_role := none
          message_content := none }
        { status := 503, content := none }
        (by decide) (by decide)).2.2.1⟩

/-! ## Claim C7 -/

/-- A concrete upstream world for the embeddings pipeline. -/
def testEmbedWorld : EmbedWorld :=
  { openaiEmbed := .success ["[0.1, 0.2]"] "tokens: 2"
    ollamaEmbed := { status := 200, body := "ok" }
    deepseekEmbed := { status := 200, embedding := some "[]" } }

/-- C7 counterexample: the empty input list passes `EmbeddingRequest`
validation and reaches the dispatcher — the adapter is constructed and
the upstream embed call is made with the empty list. -/
theorem empty_embedding_reaches_dispatcher_counterexample :
    parseEmbeddingRequest (some []) = .ok { input := [] }
  ∧ (embed_endpoint (some []) testEmbedWorld).snd
      = [.adapterConstructed "openai" "openai:text-embedding-3-small",
         .openaiEmbedCall "text-embedding-3-small" []] := ⟨rfl, rfl⟩

/-- C7 amended: `EmbeddingRequest` only requires the `input` field to be
present: a body without it is rejected, but any list — the empty list
included — passes validation and reaches the dispatcher, which constructs
the adapter and forwards the list to the upstream embed call. -/
theorem embedding_request_validation (input : List String) (w : EmbedWorld) :
    parseEmbeddingRequest none = .error "Field required: input"
  ∧ parseEmbeddingRequest (some input) = .ok { input := input }
  ∧ (embed_endpoint (some input) w).snd
      = [.adapterConstructed "openai" "openai:text-embedding-3-small",
         .openaiEmbedCall "text-embedding-3-small" input] := by
  obtain ⟨oe, ol, de⟩ := w
  refine ⟨rfl, rfl, ?_⟩
  cases oe <;> rfl

/-! ## Claim C8 -/

/-- C8: the token endpoint answers 403 `Invalid API key` — issuing no
token — exactly when the supplied key differs from the configured
`llm_router_api_key`, and otherwise returns the encoded JWT with token
type `bearer`. -/
theorem token_endpoint_behavior (st : Settings) (encode : String → String)
    (api_key : String) :
    (api_key ≠ st.llm_router_api_key →
      get_token st encode api_key = .error (.httpException 403 "Invalid API key")
      ∧ toResponse (.httpException 403 "Invalid API key")
          = .json 403 "Invalid API key")
  ∧ (api_key = st.llm_router_api_key →
      get_token st encode api_key
        = .ok { access_token := encode st.jwt_secret_key
                token_type := "bearer" }) := by
  constructor
  · intro h
    exact ⟨by simp [get_token, h], rfl⟩
  · intro h
    simp [get_token, h]

/-- C8 witness, at a wrong and the right key under the default settings. -/
theorem token_endpoint_behavior_witness :
    ("wrong" ≠ testSettings.llm_router_api_key)
  ∧ get_token testSettings (fun s => s ++ ".sig") "wrong"
      = .error (.httpException 403 "Invalid API key")
  ∧ get_token testSettings (fun s => s ++ ".sig") "testkey"
      = .ok { access_token := "secret.sig", token_type := "bearer" } :=
  ⟨by decide,
    ((token_endpoint_behavior testSettings (fun s => s ++ ".sig") "wrong").1
      (by decide)).1,
    (token_endpoint_behavior testSettings (fun s => s ++ ".sig") "testkey").2
      rfl⟩

/-! ## Claim C9 -/

/-- C9 counterexample: a request whose body is 2097152 bytes — twice the
ceiling — but which carries no `Content-Length` header is passed through
to the inner application with no 413. -/
theorem body_limit_header_only_counterexample :
    bodyLimitDispatch 1048576
        { content_length := none, body_size := 2097152 } (.json 200 "ok")
      = (.json 200 "ok", true)
  ∧ 1048576 < 2097152
  ∧ (.json 200 "ok" : RouterResponse) ≠ .json 413 "Request body too large" :=
  ⟨rfl, by decide, by decide⟩

/-- C9 amended: the middleware checks only the declared `Content-Length`
header against the 1,048,576-byte ceiling — when the header is present
and exceeds it, the response is 413 `{"detail": "Request body too
large"}` and the inner application is never invoked; a request without a
`Content-Length` header is passed through unchecked regardless of its
actual body size. -/
theorem body_limit_dispatch_behavior (req : HttpRequest)
    (inner : RouterResponse) :
    (∀ n, req.content_length = some n → 1048576 < n →
      bodyLimitDispatch 1048576 req inner
        = (.json 413 "Request body too large", false))
  ∧ (req.content_length = none →
      bodyLimitDispatch 1048576 req inner = (inner, true)) := by
  constructor
  · intro n hn h
    simp [bodyLimitDispatch, hn, h]
  · intro hn
    simp [bodyLimitDispatch, hn]

/-- C9 witness, at a 2 MB declared header. -/
theorem body_limit_dispatch_behavior_witness :
    ({ content_length := some 2097152, body_size := 2097152
        : HttpRequest }).content_length = some 2097152
  ∧ bodyLimitDispatch 1048576
        { content_length := some 2097152, body_size := 2097152 }
        (.json 200 "ok")
      = (.json 413 "Request body too large", false) :=
  ⟨rfl,
    (body_limit_dispatch_behavior
        { content_length := some 2097152, body_size := 2097152 }
        (.json 200 "ok")).1 2097152 rfl (by decide)⟩
